import Mathlib

/-!
Shallow embedding of the content-submission request handler of the
`cms-form` repository (`src/mocks/handlers.ts`, handler `submitContent`),
together with the ambient JavaScript runtime facilities it uses
(`Date.prototype.toISOString`, `Date.now`, `Math.random().toString(36)`,
string `trim`/`substring`/`split`).

Conventions of the embedding:
* A JavaScript value that may be `undefined` is an `Option`.
* The ambient reads `Date.now()`, `Math.random().toString(36).substring(7)`
  and `new Date()` are passed to the handler as explicit arguments
  (`nowMs`, `randTok`, `now`), so the handler itself is a pure function.
* An HTTP JSON response is a record of its body fields and status code.
* A request body whose processing throws inside the handler's `try` block
  (invalid JSON, or a JSON value on which property access throws) is the
  `malformed` constructor of `RawBody`; exception propagation is `Except`.
-/

namespace CmsForm

/-- Broken-down UTC instant as rendered by `Date.prototype.toISOString`
(millisecond precision; `month` and `day` are 1-based). -/
structure JsDateTime where
  year : Nat
  month : Nat
  day : Nat
  hour : Nat
  minute : Nat
  second : Nat
  millis : Nat
deriving Repr, DecidableEq

/-- Field ranges under which `toISOString` uses the plain 24-character
`YYYY-MM-DDTHH:mm:ss.sssZ` form (years 0–9999, calendar-plausible fields). -/
def validDT (d : JsDateTime) : Bool :=
  d.year ≤ 9999 && 1 ≤ d.month && d.month ≤ 12 && 1 ≤ d.day && d.day ≤ 31 &&
  d.hour ≤ 23 && d.minute ≤ 59 && d.second ≤ 59 && d.millis ≤ 999

/-- Two decimal digits, zero padded (for field values below 100). -/
def pad2 (n : Nat) : List Char :=
  [Nat.digitChar (n / 10), Nat.digitChar (n % 10)]

/-- Three decimal digits, zero padded (for field values below 1000). -/
def pad3 (n : Nat) : List Char :=
  [Nat.digitChar (n / 100), Nat.digitChar (n / 10 % 10), Nat.digitChar (n % 10)]

/-- Four decimal digits, zero padded (for field values below 10000). -/
def pad4 (n : Nat) : List Char :=
  [Nat.digitChar (n / 1000), Nat.digitChar (n / 100 % 10),
   Nat.digitChar (n / 10 % 10), Nat.digitChar (n % 10)]

/-- Model of `Date.prototype.toISOString` (ECMA-262) on instants whose year
is in 0–9999: the 24-character `YYYY-MM-DDTHH:mm:ss.sssZ` rendering. -/
def toISOString (d : JsDateTime) : String :=
  ⟨pad4 d.year ++ '-' :: pad2 d.month ++ '-' :: pad2 d.day ++
   'T' :: pad2 d.hour ++ ':' :: pad2 d.minute ++ ':' :: pad2 d.second ++
   '.' :: pad3 d.millis ++ ['Z']⟩

/-- Numeric value of a decimal digit character, `none` on anything else. -/
def digitVal (c : Char) : Option Nat :=
  if '0' ≤ c ∧ c ≤ '9' then some (c.toNat - 48) else none

/-- Numeric value of the two decimal digit characters of `cs` starting at
position `i`, `none` when either is missing or not a digit. -/
def digits2At (cs : List Char) (i : Nat) : Option Nat := do
  let a ← (cs.get? i).bind digitVal
  let b ← (cs.get? (i + 1)).bind digitVal
  some (10 * a + b)

/-- Numeric value of the three decimal digit characters of `cs` starting at
position `i`. -/
def digits3At (cs : List Char) (i : Nat) : Option Nat := do
  let a ← (cs.get? i).bind digitVal
  let bc ← digits2At cs (i + 1)
  some (100 * a + bc)

/-- Numeric value of the four decimal digit characters of `cs` starting at
position `i`. -/
def digits4At (cs : List Char) (i : Nat) : Option Nat := do
  let a ← (cs.get? i).bind digitVal
  let bcd ← digits3At cs (i + 1)
  some (1000 * a + bcd)

/-- Model of parsing a 24-character `YYYY-MM-DDTHH:mm:ss.sssZ` string back
into a broken-down UTC instant (as `Date.parse` accepts on this format);
`none` when the shape, a digit, or a field range is wrong. -/
def parseIsoUtc (s : String) : Option JsDateTime := do
  let cs := s.data
  if cs.length = 24 ∧ cs.get? 4 = some '-' ∧ cs.get? 7 = some '-' ∧
      cs.get? 10 = some 'T' ∧ cs.get? 13 = some ':' ∧ cs.get? 16 = some ':' ∧
      cs.get? 19 = some '.' ∧ cs.get? 23 = some 'Z' then
    let y ← digits4At cs 0
    let mo ← digits2At cs 5
    let dd ← digits2At cs 8
    let hh ← digits2At cs 11
    let mi ← digits2At cs 14
    let ss ← digits2At cs 17
    let ms ← digits3At cs 20
    let dt : JsDateTime := ⟨y, mo, dd, hh, mi, ss, ms⟩
    if validDT dt then some dt else none
  else none

/-- Input shape `CMSFormData` (`src/types/cms.types.ts`, as used by the
handler and the Zod schema). `heading`, `description`, `content` and the
two SEO fields are `Option String` because the handler guards them against
`undefined` (`!data.heading`, `data.seo_title?.trim()`); the remaining
attributes are opaque pass-through data, with `extra` standing for any
additional fields carried by the JSON object spread. -/
structure CMSFormData (α : Type) where
  heading : Option String
  description : Option String
  content : Option String
  slug : String
  keywords : List String
  author : String
  status : String
  category : String
  featured_image : String
  is_featured : Bool
  tags : List String
  seo_title : Option String
  seo_description : Option String
  extra : α
deriving Repr, DecidableEq

/-- Output shape `CMSContentData`: the input's attributes (spread `...data`),
with `seo_title`/`seo_description` replaced by resolved strings, plus the
server-owned `id`, `created_at`, `updated_at` and `read_time_minutes`.
`updated_at = none` models the key being absent from the object literal. -/
structure CMSContentData (α : Type) where
  heading : Option String
  description : Option String
  content : Option String
  slug : String
  keywords : List String
  author : String
  status : String
  category : String
  featured_image : String
  is_featured : Bool
  tags : List String
  seo_title : String
  seo_description : String
  extra : α
  id : String
  created_at : String
  updated_at : Option String
  read_time_minutes : Nat
deriving Repr, DecidableEq

/-- JSON response of the handler: body fields plus HTTP status. A field the
body does not carry is `none`. -/
structure JsonResponse (α : Type) where
  success : Bool
  data : Option (CMSContentData α)
  message : Option String
  error : Option String
  status : Nat
deriving Repr, DecidableEq

/-- JavaScript falsiness of a possibly-undefined string (`!x` is true
exactly on `undefined` and the empty string). -/
def falsy : Option String → Bool
  | none => true
  | some s => s == ""

/-- Model of `String.prototype.trim`: drop leading and trailing whitespace.
(Stated over the character list so that it computes by structural
recursion.) -/
def jsTrim (s : String) : String :=
  ⟨((s.data.dropWhile Char.isWhitespace).reverse.dropWhile Char.isWhitespace).reverse⟩

/-- Model of `s.substring(0, n)`: the first `n` characters of `s`. -/
def jsSubstring (s : String) (n : Nat) : String :=
  ⟨s.data.take n⟩

/-- Word count of `handlers.ts` lines 44–46: split `content` on whitespace
and count the non-empty tokens. (JS `split(/\s+/)` splits on whitespace
runs and may emit empty tokens at the ends; the per-character split below
emits an empty token between adjacent separators; the `filter` on
non-emptiness makes the two counts agree.) -/
def wordCount (content : String) : Nat :=
  ((content.data.splitOnP fun c => c.isWhitespace).filter
    fun word => word.length > 0).length

/-- Identifier of `handlers.ts` line 63:
`cms-${Date.now()}-${Math.random().toString(36).substring(7)}`. -/
def mkId (nowMs : Nat) (randTok : String) : String :=
  "cms-" ++ toString nowMs ++ "-" ++ randTok

/-- The handler body of `submitContent` (`src/mocks/handlers.ts`) after the
request body has been read successfully: validation, derived fields, and
response construction. `nowMs` and `randTok` are the ambient `Date.now()`
and `Math.random().toString(36).substring(7)` reads of line 63, `now` the
`new Date()` of line 64. -/
def submitContent (nowMs : Nat) (randTok : String) (now : JsDateTime)
    (data : CMSFormData α) : JsonResponse α :=
  if falsy data.heading || falsy data.description || falsy data.content then
    { success := false, data := none, message := none,
      error := some "Missing required fields: heading, description, or content",
      status := 400 }
  else if (data.heading.getD "").length < 3 then
    { success := false, data := none, message := none,
      error := some "Heading must be at least 3 characters long",
      status := 400 }
  else
    let wc := wordCount (data.content.getD "")
    let readTime := max 1 ((wc + 199) / 200)
    let seoTitle :=
      match data.seo_title with
      | some s => if jsTrim s = "" then jsSubstring (data.heading.getD "") 60 else s
      | none => jsSubstring (data.heading.getD "") 60
    let seoDescription :=
      match data.seo_description with
      | some s => if jsTrim s = "" then jsSubstring (data.description.getD "") 160 else s
      | none => jsSubstring (data.description.getD "") 160
    let response : CMSContentData α :=
      { heading := data.heading, description := data.description,
        content := data.content, slug := data.slug, keywords := data.keywords,
        author := data.author, status := data.status, category := data.category,
        featured_image := data.featured_image, is_featured := data.is_featured,
        tags := data.tags, extra := data.extra,
        seo_title := seoTitle, seo_description := seoDescription,
        id := mkId nowMs randTok,
        created_at := toISOString now,
        updated_at := none,
        read_time_minutes := readTime }
    { success := true, data := some response,
      message := some "Content created successfully", error := none,
      status := 201 }

/-- Request body as it reaches the handler's `try` block: `malformed` covers
every body whose reading or property access throws (invalid JSON, JSON
`null`, ...); `wellFormed` carries the decoded object. -/
inductive RawBody (α : Type) where
  | malformed
  | wellFormed (data : CMSFormData α)
deriving Repr, DecidableEq

/-- Reading and using the request body inside the `try` block: a thrown
exception is an `Except.error`. -/
def parseJsonBody : RawBody α → Except String (CMSFormData α)
  | .malformed => .error "Unexpected token in JSON"
  | .wellFormed data => .ok data

/-- The whole route handler including the `try`/`catch` of
`handlers.ts` lines 19–103: any exception raised while processing the body
is caught and answered with status 500. -/
def submitRoute (nowMs : Nat) (randTok : String) (now : JsDateTime)
    (body : RawBody α) : JsonResponse α :=
  match parseJsonBody body with
  | .ok data => submitContent nowMs randTok now data
  | .error _ =>
    { success := false, data := none, message := none,
      error := some "Internal server error", status := 500 }

/-! Concrete fixtures used by witnesses: the end-to-end scenario of the
specification (§8) and its successful response record. -/

/-- Sample clock instant. -/
def dtEx : JsDateTime := ⟨2024, 5, 17, 10, 30, 15, 123⟩

/-- Sample candidate of the end-to-end scenario. -/
def dEx : CMSFormData Unit :=
  { heading := some "Test Article", description := some "Test description",
    content := some "Test content with some words here", slug := "test-article",
    keywords := ["test"], author := "A", status := "draft", category := "blog",
    featured_image := "", is_featured := false, tags := ["t"],
    seo_title := some "", seo_description := some "", extra := () }

/-- The record `submitContent 5 "tok" dtEx dEx` returns. -/
def rEx : CMSContentData Unit :=
  { heading := some "Test Article", description := some "Test description",
    content := some "Test content with some words here", slug := "test-article",
    keywords := ["test"], author := "A", status := "draft", category := "blog",
    featured_image := "", is_featured := false, tags := ["t"],
    seo_title := "Test Article", seo_description := "Test description", extra := (),
    id := "cms-5-tok", created_at := toISOString dtEx, updated_at := none,
    read_time_minutes := 1 }

/-- Characterization of the success branch: whenever the response carries a
record, that record is exactly the one built on `handlers.ts` lines 59–68. -/
theorem submit_data_some {α : Type} {nowMs : Nat} {randTok : String}
    {now : JsDateTime} {d : CMSFormData α} {r : CMSContentData α}
    (h : (submitContent nowMs randTok now d).data = some r) :
    r = { heading := d.heading, description := d.description, content := d.content,
          slug := d.slug, keywords := d.keywords, author := d.author,
          status := d.status, category := d.category,
          featured_image := d.featured_image, is_featured := d.is_featured,
          tags := d.tags,
          seo_title :=
            match d.seo_title with
            | some s => if jsTrim s = "" then jsSubstring (d.heading.getD "") 60 else s
            | none => jsSubstring (d.heading.getD "") 60,
          seo_description :=
            match d.seo_description with
            | some s => if jsTrim s = "" then jsSubstring (d.description.getD "") 160 else s
            | none => jsSubstring (d.description.getD "") 160,
          extra := d.extra, id := mkId nowMs randTok,
          created_at := toISOString now, updated_at := none,
          read_time_minutes :=
            max 1 ((wordCount (d.content.getD "") + 199) / 200) } := by
  unfold submitContent at h
  split at h
  · exact absurd h (by simp)
  · split at h
    · exact absurd h (by simp)
    · exact (Option.some.inj h).symm

/-- Success responses and only they carry a record. -/
theorem submit_success_iff_data_isSome {α : Type} (nowMs : Nat) (randTok : String)
    (now : JsDateTime) (d : CMSFormData α) :
    (submitContent nowMs randTok now d).success = true ↔
      (submitContent nowMs randTok now d).data.isSome = true := by
  unfold submitContent
  split
  · simp
  · split <;> simp

/-- Claim C3: a candidate with an absent or empty `heading`, `description`
or `content` is rejected with the missing-required-fields error, HTTP 400,
and the response carries no record (hence no derived fields, id or
timestamp). -/
theorem submit_missing_required_fields {α : Type} (nowMs : Nat)
    (randTok : String) (now : JsDateTime) (d : CMSFormData α)
    (h : falsy d.heading = true ∨ falsy d.description = true ∨
      falsy d.content = true) :
    submitContent nowMs randTok now d =
      { success := false, data := none, message := none,
        error := some "Missing required fields: heading, description, or content",
        status := 400 } := by
  unfold submitContent
  have hc : (falsy d.heading || falsy d.description || falsy d.content) = true := by
    rcases h with h | h | h <;> simp [h]
  rw [if_pos hc]

/-- Witness for C3 at a candidate with no heading. -/
theorem submit_missing_required_fields_witness :
    falsy ({ dEx with heading := none } : CMSFormData Unit).heading = true ∧
      submitContent 5 "tok" dtEx ({ dEx with heading := none } : CMSFormData Unit) =
        { success := false, data := none, message := none,
          error := some "Missing required fields: heading, description, or content",
          status := 400 } :=
  ⟨by decide,
   submit_missing_required_fields 5 "tok" dtEx _ (Or.inl (by decide))⟩

/-- Claim C4: when all three required fields are present and non-empty but
the heading is shorter than 3 characters, the handler rejects with the
heading-too-short error and HTTP 400; the missing-fields error cannot be
reported there (fail-fast ordering: that check has already passed). -/
theorem submit_heading_too_short {α : Type} (nowMs : Nat) (randTok : String)
    (now : JsDateTime) (d : CMSFormData α)
    (h1 : falsy d.heading = false) (h2 : falsy d.description = false)
    (h3 : falsy d.content = false) (h4 : (d.heading.getD "").length < 3) :
    submitContent nowMs randTok now d =
      { success := false, data := none, message := none,
        error := some "Heading must be at least 3 characters long",
        status := 400 } := by
  unfold submitContent
  rw [if_neg (by simp [h1, h2, h3]), if_pos h4]

/-- Witness for C4 at a two-character heading. -/
theorem submit_heading_too_short_witness :
    falsy ({ dEx with heading := some "ab" } : CMSFormData Unit).heading = false ∧
      submitContent 5 "tok" dtEx ({ dEx with heading := some "ab" } : CMSFormData Unit) =
        { success := false, data := none, message := none,
          error := some "Heading must be at least 3 characters long",
          status := 400 } :=
  ⟨by decide,
   submit_heading_too_short 5 "tok" dtEx _ (by decide) (by decide) (by decide)
     (by decide)⟩

/-- Claim C10: a whitespace-only heading of length at least 3, with
non-empty description and content, passes both checks and the submission
succeeds: the required-field emptiness test compares against the exact
empty string without trimming. -/
theorem submit_whitespace_heading_accepted {α : Type} (nowMs : Nat)
    (randTok : String) (now : JsDateTime) (d : CMSFormData α) (hd : String)
    (hh : d.heading = some hd) (_hws : ∀ c ∈ hd.data, c.isWhitespace)
    (hlen : 3 ≤ hd.length)
    (h2 : falsy d.description = false) (h3 : falsy d.content = false) :
    (submitContent nowMs randTok now d).success = true ∧
      (submitContent nowMs randTok now d).status = 201 := by
  have hne : hd ≠ "" := by
    intro he
    rw [he] at hlen
    simp [String.length] at hlen
  have h1 : falsy d.heading = false := by simp [falsy, hh, hne]
  have hlt : ¬ (d.heading.getD "").length < 3 := by
    rw [hh]
    simpa using hlen
  unfold submitContent
  rw [if_neg (by simp [h1, h2, h3]), if_neg hlt]
  exact ⟨rfl, rfl⟩

/-- Witness for C10 at a heading of three spaces. -/
theorem submit_whitespace_heading_accepted_witness :
    ({ dEx with heading := some "   " } : CMSFormData Unit).heading = some "   " ∧
      (submitContent 5 "tok" dtEx
          ({ dEx with heading := some "   " } : CMSFormData Unit)).success = true ∧
      (submitContent 5 "tok" dtEx
          ({ dEx with heading := some "   " } : CMSFormData Unit)).status = 201 :=
  ⟨rfl,
   submit_whitespace_heading_accepted 5 "tok" dtEx _ "   " rfl (by decide)
     (by decide) (by decide) (by decide)⟩

/-- Claim C5: every record returned by the creation path has `updated_at`
distinguishably absent. -/
theorem submit_updated_at_absent {α : Type} (nowMs : Nat) (randTok : String)
    (now : JsDateTime) (d : CMSFormData α) (r : CMSContentData α)
    (h : (submitContent nowMs randTok now d).data = some r) :
    r.updated_at = none := by
  rw [submit_data_some h]

/-- Witness for C5 at the sample candidate. -/
theorem submit_updated_at_absent_witness :
    (submitContent 5 "tok" dtEx dEx).data = some rEx ∧ rEx.updated_at = none :=
  ⟨by decide, submit_updated_at_absent 5 "tok" dtEx dEx rEx (by decide)⟩

/-- Claim C7: every attribute of an accepted candidate other than
`seo_title` and `seo_description` — including the opaque pass-through
attributes and any extra field — appears in the returned record unchanged. -/
theorem submit_passthrough_unchanged {α : Type} (nowMs : Nat) (randTok : String)
    (now : JsDateTime) (d : CMSFormData α) (r : CMSContentData α)
    (h : (submitContent nowMs randTok now d).data = some r) :
    r.heading = d.heading ∧ r.description = d.description ∧
      r.content = d.content ∧ r.slug = d.slug ∧ r.keywords = d.keywords ∧
      r.author = d.author ∧ r.status = d.status ∧ r.category = d.category ∧
      r.featured_image = d.featured_image ∧ r.is_featured = d.is_featured ∧
      r.tags = d.tags ∧ r.extra = d.extra := by
  rw [submit_data_some h]
  exact ⟨rfl, rfl, rfl, rfl, rfl, rfl, rfl, rfl, rfl, rfl, rfl, rfl⟩

/-- Witness for C7 at the sample candidate. -/
theorem submit_passthrough_unchanged_witness :
    (submitContent 5 "tok" dtEx dEx).data = some rEx ∧
      rEx.heading = dEx.heading ∧ rEx.extra = dEx.extra :=
  ⟨by decide,
   (submit_passthrough_unchanged 5 "tok" dtEx dEx rEx (by decide)).1,
   (submit_passthrough_unchanged 5 "tok" dtEx dEx rEx (by decide)).2.2.2.2.2.2.2.2.2.2.2⟩

/-- Claim C8: whenever reading or using the request body throws inside the
handler's `try` block, the route answers status 500 with body
`{ success: false, error: "Internal server error" }` — in the same call and
never as a 400 validation failure. -/
theorem submit_internal_error_on_fault {α : Type} (nowMs : Nat)
    (randTok : String) (now : JsDateTime) (body : RawBody α) (e : String)
    (h : parseJsonBody body = Except.error e) :
    submitRoute nowMs randTok now body =
      { success := false, data := none, message := none,
        error := some "Internal server error", status := 500 } := by
  unfold submitRoute
  rw [h]

/-- Witness for C8 at a malformed body. -/
theorem submit_internal_error_on_fault_witness :
    parseJsonBody (RawBody.malformed (α := Unit)) =
        Except.error "Unexpected token in JSON" ∧
      submitRoute 5 "tok" dtEx (RawBody.malformed (α := Unit)) =
        { success := false, data := none, message := none,
          error := some "Internal server error", status := 500 } :=
  ⟨rfl, submit_internal_error_on_fault 5 "tok" dtEx RawBody.malformed
    "Unexpected token in JSON" rfl⟩

/-- Arithmetic bridge: the integer formula `(w + 199) / 200` of the handler
is the mathematical ceiling of `w / 200`. -/
theorem toNat_ceil_div_200 (w : Nat) :
    (⌈(w : ℚ) / 200⌉).toNat = (w + 199) / 200 := by
  have hle : w ≤ 200 * ((w + 199) / 200) := by omega
  have hlt : 200 * ((w + 199) / 200) < w + 200 := by omega
  generalize hq : (w + 199) / 200 = q at hle hlt ⊢
  have hceil : ⌈(w : ℚ) / 200⌉ = ((q : ℕ) : ℤ) := by
    rw [Int.ceil_eq_iff]
    have h1 : ((w : ℕ) : ℚ) ≤ ((200 * q : ℕ) : ℚ) := by exact_mod_cast hle
    have h2 : ((200 * q : ℕ) : ℚ) < ((w + 200 : ℕ) : ℚ) := by exact_mod_cast hlt
    push_cast at h1 h2 ⊢
    constructor
    · linarith
    · linarith
  rw [hceil, Int.toNat_natCast]

/-- Claim C1: for every accepted candidate, the returned
`read_time_minutes` is `max 1 ⌈wordCount(content) / 200⌉` with `wordCount`
the number of non-empty whitespace-separated tokens of `content`. -/
theorem submit_read_time_spec {α : Type} (nowMs : Nat) (randTok : String)
    (now : JsDateTime) (d : CMSFormData α) (r : CMSContentData α)
    (h : (submitContent nowMs randTok now d).data = some r) :
    r.read_time_minutes =
      max 1 (⌈(wordCount (d.content.getD "") : ℚ) / 200⌉).toNat := by
  rw [submit_data_some h]
  show max 1 ((wordCount (d.content.getD "") + 199) / 200) = _
  rw [toNat_ceil_div_200]

/-- Witness for C1 at the sample candidate, whose six-word content gives a
read time of one minute. -/
theorem submit_read_time_spec_witness :
    (submitContent 5 "tok" dtEx dEx).data = some rEx ∧
      rEx.read_time_minutes =
        max 1 (⌈(wordCount (dEx.content.getD "") : ℚ) / 200⌉).toNat :=
  ⟨by decide, submit_read_time_spec 5 "tok" dtEx dEx rEx (by decide)⟩

/-- Claim C2: for every accepted candidate, a `seo_title` that is non-empty
after trimming is kept verbatim (untrimmed), and an absent or
whitespace-only `seo_title` is replaced by the first 60 characters of the
heading; the identical rule relates `seo_description` to `description`
with a 160-character truncation. -/
theorem submit_seo_resolution {α : Type} (nowMs : Nat) (randTok : String)
    (now : JsDateTime) (d : CMSFormData α) (r : CMSContentData α)
    (h : (submitContent nowMs randTok now d).data = some r) :
    (∀ s, d.seo_title = some s → jsTrim s ≠ "" → r.seo_title = s) ∧
      (jsTrim (d.seo_title.getD "") = "" →
        r.seo_title = jsSubstring (d.heading.getD "") 60) ∧
      (∀ s, d.seo_description = some s → jsTrim s ≠ "" → r.seo_description = s) ∧
      (jsTrim (d.seo_description.getD "") = "" →
        r.seo_description = jsSubstring (d.description.getD "") 160) := by
  rw [submit_data_some h]
  refine ⟨fun s hs hne => ?_, fun hblank => ?_, fun s hs hne => ?_, fun hblank => ?_⟩
  · simp only [hs, if_neg hne]
  · cases hseo : d.seo_title with
    | none => simp only [hseo]
    | some s =>
      rw [hseo] at hblank
      simp only [Option.getD_some] at hblank
      simp only [hseo, if_pos hblank]
  · simp only [hs, if_neg hne]
  · cases hseo : d.seo_description with
    | none => simp only [hseo]
    | some s =>
      rw [hseo] at hblank
      simp only [Option.getD_some] at hblank
      simp only [hseo, if_pos hblank]

/-- Witness for C2 at the sample candidate, whose empty SEO fields fall
back to the heading and description. -/
theorem submit_seo_resolution_witness :
    (submitContent 5 "tok" dtEx dEx).data = some rEx ∧
      (jsTrim (dEx.seo_title.getD "") = "" →
        rEx.seo_title = jsSubstring (dEx.heading.getD "") 60) ∧
      (jsTrim (dEx.seo_description.getD "") = "" →
        rEx.seo_description = jsSubstring (dEx.description.getD "") 160) :=
  ⟨by decide,
   (submit_seo_resolution 5 "tok" dtEx dEx rEx (by decide)).2.1,
   (submit_seo_resolution 5 "tok" dtEx dEx rEx (by decide)).2.2.2⟩

/-- The digit-character map never yields a dash on decimal digits. -/
theorem digitChar_ne_dash (m : Nat) (h : m < 10) : Nat.digitChar m ≠ '-' := by
  interval_cases m <;> decide

/-- On decimal digits, the value of the digit character is recovered by its
code point. -/
theorem digitChar_toNat (k : Nat) (h : k < 10) :
    (Nat.digitChar k).toNat = 48 + k := by
  interval_cases k <;> decide

/-- Reference decimal rendering of a natural number, structurally recursive
in the value. -/
def natDigits (n : Nat) : List Char :=
  if n < 10 then [Nat.digitChar n]
  else natDigits (n / 10) ++ [Nat.digitChar (n % 10)]
decreasing_by exact Nat.div_lt_self (by omega) (by omega)

/-- Unfolding of `natDigits` on single digits. -/
theorem natDigits_lt (n : Nat) (h : n < 10) :
    natDigits n = [Nat.digitChar n] := by
  rw [natDigits]
  simp [h]

/-- Unfolding of `natDigits` on multi-digit numbers. -/
theorem natDigits_ge (n : Nat) (h : ¬ n < 10) :
    natDigits n = natDigits (n / 10) ++ [Nat.digitChar (n % 10)] := by
  rw [natDigits]
  simp [h]

/-- The fuel-based digit renderer of core's `Nat.repr` agrees with
`natDigits` when the fuel suffices. -/
theorem toDigitsCore_eq_natDigits (fuel : Nat) :
    ∀ n ds, n < fuel →
      Nat.toDigitsCore 10 fuel n ds = natDigits n ++ ds := by
  induction fuel with
  | zero => omega
  | succ fuel ih =>
    intro n ds h
    unfold Nat.toDigitsCore
    by_cases h10 : n / 10 = 0
    · have hn : n < 10 := by omega
      rw [if_pos h10, natDigits_lt n hn]
      simp [Nat.mod_eq_of_lt hn]
    · have hn : ¬ n < 10 := by omega
      rw [if_neg h10, ih (n / 10) _ (by omega), natDigits_ge n hn]
      simp

/-- The decimal rendering of a natural number is its `natDigits`. -/
theorem repr_data (n : Nat) : (Nat.repr n).data = natDigits n := by
  show (Nat.toDigits 10 n).asString.data = natDigits n
  unfold Nat.toDigits
  rw [toDigitsCore_eq_natDigits (n + 1) n [] (Nat.lt_succ_self n)]
  simp [List.asString]

/-- A decimal rendering never contains a dash. -/
theorem dash_not_mem_natDigits (n : Nat) : '-' ∉ natDigits n := by
  induction n using Nat.strong_induction_on with
  | _ n ih =>
    by_cases h : n < 10
    · rw [natDigits_lt n h]
      simp [(digitChar_ne_dash n h).symm]
    · have hdiv : n / 10 < n := Nat.div_lt_self (by omega) (by omega)
      rw [natDigits_ge n h]
      simp only [List.mem_append, List.mem_singleton]
      rintro (hc | hc)
      · exact ih (n / 10) hdiv hc
      · exact digitChar_ne_dash (n % 10) (by omega) hc.symm

/-- A decimal rendering is never empty. -/
theorem natDigits_ne_nil (n : Nat) : natDigits n ≠ [] := by
  by_cases h : n < 10
  · rw [natDigits_lt n h]
    simp
  · rw [natDigits_ge n h]
    simp

/-- Decimal renderings are injective. -/
theorem natDigits_inj : ∀ m n, natDigits m = natDigits n → m = n := by
  intro m
  induction m using Nat.strong_induction_on with
  | _ m ih =>
    intro n h
    by_cases hm : m < 10 <;> by_cases hn : n < 10
    · rw [natDigits_lt m hm, natDigits_lt n hn] at h
      have := congrArg (fun l => (List.headD l ' ').toNat) h
      simp only [List.headD_cons] at this
      rw [digitChar_toNat m hm, digitChar_toNat n hn] at this
      omega
    · rw [natDigits_lt m hm, natDigits_ge n hn] at h
      have hlen := congrArg List.length h
      have h1 := List.length_pos.mpr (natDigits_ne_nil (n / 10))
      simp only [List.length_singleton, List.length_append] at hlen
      omega
    · rw [natDigits_ge m hm, natDigits_lt n hn] at h
      have hlen := congrArg List.length h
      have h1 := List.length_pos.mpr (natDigits_ne_nil (m / 10))
      simp only [List.length_singleton, List.length_append] at hlen
      omega
    · rw [natDigits_ge m hm, natDigits_ge n hn] at h
      obtain ⟨h1, h2⟩ := List.append_inj' h (by simp)
      have hdiv : m / 10 < m := Nat.div_lt_self (by omega) (by omega)
      have hq := ih (m / 10) hdiv (n / 10) h1
      have hr : m % 10 = n % 10 := by
        have := congrArg (fun l => (List.headD l ' ').toNat) h2
        simp only [List.headD_cons] at this
        rw [digitChar_toNat (m % 10) (by omega),
          digitChar_toNat (n % 10) (by omega)] at this
        omega
      omega

/-- Splitting a character list at a dash that occurs in neither part is
unambiguous. -/
theorem append_dash_inj :
    ∀ s1 s2 t1 t2 : List Char, '-' ∉ s1 → '-' ∉ s2 →
      s1 ++ '-' :: t1 = s2 ++ '-' :: t2 → s1 = s2 ∧ t1 = t2 := by
  intro s1
  induction s1 with
  | nil =>
    intro s2 t1 t2 _ h2 h
    cases s2 with
    | nil => simpa using h
    | cons c s2 =>
      simp only [List.nil_append, List.cons_append, List.cons.injEq] at h
      exact absurd (h.1 ▸ List.mem_cons_self c s2) h2
  | cons c s1 ih =>
    intro s2 t1 t2 h1 h2 h
    cases s2 with
    | nil =>
      simp only [List.nil_append, List.cons_append, List.cons.injEq] at h
      exact absurd (h.1 ▸ List.mem_cons_self c s1) h1
    | cons c' s2 =>
      simp only [List.cons_append, List.cons.injEq] at h
      obtain ⟨hc, hrest⟩ := h
      have := ih s2 t1 t2 (fun hm => h1 (List.mem_cons_of_mem c hm))
        (fun hm => h2 (List.mem_cons_of_mem c' hm)) hrest
      exact ⟨by rw [hc, this.1], this.2⟩

/-- Character data of a generated identifier. -/
theorem mkId_data (n : Nat) (t : String) :
    (mkId n t).data =
      'c' :: 'm' :: 's' :: '-' :: (natDigits n ++ '-' :: t.data) := by
  show ((("cms-" ++ toString n) ++ "-") ++ t).data = _
  have hd : ∀ a b : String, (a ++ b).data = a.data ++ b.data := fun a b => rfl
  rw [hd, hd, hd]
  show ('c' :: 'm' :: 's' :: '-' :: (Nat.repr n).data) ++ ['-'] ++ t.data = _
  rw [repr_data]
  simp

/-- Generated identifiers are injective in the timestamp–token pair: the
decimal timestamp rendering is dash-free, so the dash separating it from
the random token is unambiguous. -/
theorem mkId_inj (n1 n2 : Nat) (t1 t2 : String)
    (h : mkId n1 t1 = mkId n2 t2) : n1 = n2 ∧ t1 = t2 := by
  have hd := congrArg String.data h
  rw [mkId_data, mkId_data] at hd
  simp only [List.cons.injEq, true_and] at hd
  obtain ⟨e1, e2⟩ := append_dash_inj _ _ _ _
    (dash_not_mem_natDigits n1) (dash_not_mem_natDigits n2) hd
  exact ⟨natDigits_inj _ _ e1, String.ext e2⟩

/-- Identifier carried by an accepted submission. -/
theorem submit_id_eq {α : Type} {nowMs : Nat} {randTok : String}
    {now : JsDateTime} {d : CMSFormData α} {r : CMSContentData α}
    (h : (submitContent nowMs randTok now d).data = some r) :
    r.id = mkId nowMs randTok := by
  rw [submit_data_some h]

/-- Counterexample to claim C6 as stated: two sequential successful calls
with identical input can return the same id — the handler derives the id
only from the ambient millisecond timestamp and random token, so when the
two calls observe the same reads (same millisecond, colliding token)
nothing prevents reuse. Both calls below succeed and both return the id
`cms-1700000000000-k3q9z`. -/
theorem submit_id_reuse_cex :
    ((submitContent 1700000000000 "k3q9z" dtEx dEx).data.map CMSContentData.id) =
        some "cms-1700000000000-k3q9z" ∧
      ((submitContent 1700000000000 "k3q9z" dtEx dEx).data.map CMSContentData.id) =
        some "cms-1700000000000-k3q9z" := by
  constructor <;> decide

/-- Claim C6 as amended: two successful calls return different ids whenever
their ambient reads differ — a distinct `Date.now()` millisecond value or a
distinct random token. -/
theorem submit_ids_distinct {α : Type} (n1 n2 : Nat) (t1 t2 : String)
    (now1 now2 : JsDateTime) (d1 d2 : CMSFormData α)
    (r1 r2 : CMSContentData α)
    (h1 : (submitContent n1 t1 now1 d1).data = some r1)
    (h2 : (submitContent n2 t2 now2 d2).data = some r2)
    (hne : n1 ≠ n2 ∨ t1 ≠ t2) : r1.id ≠ r2.id := by
  rw [submit_id_eq h1, submit_id_eq h2]
  intro he
  obtain ⟨e1, e2⟩ := mkId_inj n1 n2 t1 t2 he
  rcases hne with hne | hne
  · exact hne e1
  · exact hne e2

/-- Witness for the amended C6: two identical submissions one millisecond
apart carry distinct ids. -/
theorem submit_ids_distinct_witness :
    (submitContent 1 "aa" dtEx dEx).data = some { rEx with id := "cms-1-aa" } ∧
      (submitContent 2 "aa" dtEx dEx).data = some { rEx with id := "cms-2-aa" } ∧
      ({ rEx with id := "cms-1-aa" } : CMSContentData Unit).id ≠
        ({ rEx with id := "cms-2-aa" } : CMSContentData Unit).id :=
  ⟨by decide, by decide,
   submit_ids_distinct 1 2 "aa" "aa" dtEx dtEx dEx dEx _ _ (by decide) (by decide)
     (Or.inl (by decide))⟩

/-- Digit characters round-trip through `digitVal` on decimal digits. -/
theorem digitVal_digitChar (k : Nat) (h : k < 10) :
    digitVal (Nat.digitChar k) = some k := by
  interval_cases k <;> decide

/-- Parsing inverts formatting on valid instants. -/
theorem parse_toISO (dt : JsDateTime) (h : validDT dt = true) :
    parseIsoUtc (toISOString dt) = some dt := by
  obtain ⟨y, mo, dd, hh, mi, ss, ms⟩ := dt
  simp only [validDT, Bool.and_eq_true, decide_eq_true_eq] at h
  obtain ⟨⟨⟨⟨⟨⟨⟨⟨hy, hmo1⟩, hmo2⟩, hdd1⟩, hdd2⟩, hhh⟩, hmi⟩, hss⟩, hms⟩ := h
  have hcs : (toISOString ⟨y, mo, dd, hh, mi, ss, ms⟩).data =
      [Nat.digitChar (y / 1000), Nat.digitChar (y / 100 % 10),
       Nat.digitChar (y / 10 % 10), Nat.digitChar (y % 10), '-',
       Nat.digitChar (mo / 10), Nat.digitChar (mo % 10), '-',
       Nat.digitChar (dd / 10), Nat.digitChar (dd % 10), 'T',
       Nat.digitChar (hh / 10), Nat.digitChar (hh % 10), ':',
       Nat.digitChar (mi / 10), Nat.digitChar (mi % 10), ':',
       Nat.digitChar (ss / 10), Nat.digitChar (ss % 10), '.',
       Nat.digitChar (ms / 100), Nat.digitChar (ms / 10 % 10),
       Nat.digitChar (ms % 10), 'Z'] := by
    simp [toISOString, pad4, pad3, pad2]
  rw [parseIsoUtc, hcs]
  rw [if_pos ⟨rfl, rfl, rfl, rfl, rfl, rfl, rfl, rfl⟩]
  have v0 : digitVal (Nat.digitChar (y / 1000)) = some (y / 1000) :=
    digitVal_digitChar _ (by omega)
  have v1 : digitVal (Nat.digitChar (y / 100 % 10)) = some (y / 100 % 10) :=
    digitVal_digitChar _ (by omega)
  have v2 : digitVal (Nat.digitChar (y / 10 % 10)) = some (y / 10 % 10) :=
    digitVal_digitChar _ (by omega)
  have v3 : digitVal (Nat.digitChar (y % 10)) = some (y % 10) :=
    digitVal_digitChar _ (by omega)
  have v4 : digitVal (Nat.digitChar (mo / 10)) = some (mo / 10) :=
    digitVal_digitChar _ (by omega)
  have v5 : digitVal (Nat.digitChar (mo % 10)) = some (mo % 10) :=
    digitVal_digitChar _ (by omega)
  have v6 : digitVal (Nat.digitChar (dd / 10)) = some (dd / 10) :=
    digitVal_digitChar _ (by omega)
  have v7 : digitVal (Nat.digitChar (dd % 10)) = some (dd % 10) :=
    digitVal_digitChar _ (by omega)
  have v8 : digitVal (Nat.digitChar (hh / 10)) = some (hh / 10) :=
    digitVal_digitChar _ (by omega)
  have v9 : digitVal (Nat.digitChar (hh % 10)) = some (hh % 10) :=
    digitVal_digitChar _ (by omega)
  have v10 : digitVal (Nat.digitChar (mi / 10)) = some (mi / 10) :=
    digitVal_digitChar _ (by omega)
  have v11 : digitVal (Nat.digitChar (mi % 10)) = some (mi % 10) :=
    digitVal_digitChar _ (by omega)
  have v12 : digitVal (Nat.digitChar (ss / 10)) = some (ss / 10) :=
    digitVal_digitChar _ (by omega)
  have v13 : digitVal (Nat.digitChar (ss % 10)) = some (ss % 10) :=
    digitVal_digitChar _ (by omega)
  have v14 : digitVal (Nat.digitChar (ms / 100)) = some (ms / 100) :=
    digitVal_digitChar _ (by omega)
  have v15 : digitVal (Nat.digitChar (ms / 10 % 10)) = some (ms / 10 % 10) :=
    digitVal_digitChar _ (by omega)
  have v16 : digitVal (Nat.digitChar (ms % 10)) = some (ms % 10) :=
    digitVal_digitChar _ (by omega)
  simp only [digits4At, digits3At, digits2At, List.get?, Option.bind_some,
    Option.some_bind, v0, v1, v2, v3, v4, v5, v6, v7, v8, v9, v10, v11, v12,
    v13, v14, v15, v16, Option.bind_eq_bind]
  have ey : 1000 * (y / 1000) + (100 * (y / 100 % 10) + (10 * (y / 10 % 10) + y % 10)) = y := by
    omega
  have emo : 10 * (mo / 10) + mo % 10 = mo := by omega
  have edd : 10 * (dd / 10) + dd % 10 = dd := by omega
  have ehh : 10 * (hh / 10) + hh % 10 = hh := by omega
  have emi : 10 * (mi / 10) + mi % 10 = mi := by omega
  have ess : 10 * (ss / 10) + ss % 10 = ss := by omega
  have ems : 100 * (ms / 100) + (10 * (ms / 10 % 10) + ms % 10) = ms := by omega
  rw [ey, emo, edd, ehh, emi, ess, ems]
  rw [if_pos]
  simp only [validDT, Bool.and_eq_true, decide_eq_true_eq]
  exact ⟨⟨⟨⟨⟨⟨⟨⟨hy, hmo1⟩, hmo2⟩, hdd1⟩, hdd2⟩, hhh⟩, hmi⟩, hss⟩, hms⟩


/-- Claim C9: on every successful call the returned `created_at` is the
ISO-8601 UTC millisecond rendering of the handler's clock read, it parses
back to that instant, and re-serializing the parse yields the identical
string. -/
theorem submit_created_at_roundtrip {α : Type} (nowMs : Nat)
    (randTok : String) (now : JsDateTime) (d : CMSFormData α)
    (r : CMSContentData α) (hv : validDT now = true)
    (h : (submitContent nowMs randTok now d).data = some r) :
    parseIsoUtc r.created_at = some now ∧
      (parseIsoUtc r.created_at).map toISOString = some r.created_at := by
  have hc : r.created_at = toISOString now := by rw [submit_data_some h]
  rw [hc, parse_toISO now hv]
  exact ⟨rfl, rfl⟩

/-- Witness for C9 at the sample clock instant. -/
theorem submit_created_at_roundtrip_witness :
    validDT dtEx = true ∧ (submitContent 5 "tok" dtEx dEx).data = some rEx ∧
      parseIsoUtc rEx.created_at = some dtEx ∧
      (parseIsoUtc rEx.created_at).map toISOString = some rEx.created_at :=
  ⟨by decide, by decide,
   (submit_created_at_roundtrip 5 "tok" dtEx dEx rEx (by decide) (by decide)).1,
   (submit_created_at_roundtrip 5 "tok" dtEx dEx rEx (by decide) (by decide)).2⟩

end CmsForm
